import Mathlib

/-!
Shallow embedding of the ChainedTables hash table
(src/chained_table.h, src/chained_table.cpp).

The repository ships only the table layer. `record.h` and the
`linked_list` module it includes are absent, so the entry record, the
chain representation and `remove_n` are modelled from the spec (section 3:
a chain is an ordered sequence of entries; section 4.5: removal unlinks a
node). A `LinkedList*` that may be NULL is modelled as an `Option` of a
chain. Everything else is translated from src/chained_table.cpp.
-/

set_option autoImplicit false

namespace ChainedTable

universe u v

variable {κ : Type u} {ν : Type v}

/-- Modelled from the spec: `record.h` is absent from the repository. An
entry ("Record") is an owned key and an owned value (spec section 3); the
source accesses exactly the two fields `key` and `value` (`r->key`,
`r->value`). -/
structure Record (κ : Type u) (ν : Type v) where
  key : κ
  value : ν
deriving DecidableEq

/-- Modelled from the spec: the `linked_list` module is absent. A chain is
an ordered sequence of entries (spec section 3); the `first` pointer of the
source's `LinkedList` corresponds to the head of the list and `node->next`
to the tail. -/
abbrev Chain (κ : Type u) (ν : Type v) := List (Record κ ν)

/-- The `HashTable` struct of src/chained_table.h lines 24-32. A bucket is
a `LinkedList*`, which may be NULL: `none` models the NULL pointer and
`some c` a list whose node sequence is `c`. The unsigned `size_t` hash
results are modelled as `Nat`; the `int` table size `N` as `Int`. -/
structure HashTable (κ : Type u) (ν : Type v) where
  N : Int
  buckets : List (Option (Chain κ ν))
  hash_function : κ → Nat
  compare : κ → κ → Int
  record_formatter : Record κ ν → String
  key_size : Nat
  value_size : Nat

/-- The bucket-initialisation loop of `create_table` (lines 37-39): every
slot of the freshly allocated array is set to NULL; for `N ≤ 0` the loop
body never runs. -/
def init_buckets (κ : Type u) (ν : Type v) : Nat → List (Option (Chain κ ν))
  | 0 => []
  | n + 1 => none :: init_buckets κ ν n

/-- `create_table`, src/chained_table.cpp lines 20-41. There is no
validation of `N`: the function unconditionally allocates the struct,
stores every argument, NULLs the `max(N,0)` bucket slots and returns the
table. Allocation itself is assumed to succeed. -/
def create_table (N : Int) (hash_function : κ → Nat) (compare : κ → κ → Int)
    (record_formatter : Record κ ν → String) (key_size value_size : Nat) :
    HashTable κ ν :=
  { N := N
    buckets := init_buckets κ ν N.toNat
    hash_function := hash_function
    compare := compare
    record_formatter := record_formatter
    key_size := key_size
    value_size := value_size }

/-- Result of `search`. Besides the two documented results, the source can
take three abnormal paths: dereferencing a NULL `LinkedList*` bucket slot
(`nullDeref`, line 102 on a never-written slot), the non-terminating scan
loop (`diverge`, lines 104-111), and an out-of-range bucket read (`ub`,
reachable only for tables whose `N ≤ 0`). -/
inductive SearchOutcome (ν : Type v) where
  | found (value : ν)
  | notFound
  | nullDeref
  | diverge
  | ub
deriving DecidableEq

/-- Result of the mutators. `ret b t` models a normal return of the C
`bool` `b` with the table left in state `t`; `nullDeref` a dereference of a
NULL bucket pointer; `ub` other undefined behaviour (the uninitialised
`Record*` write in `insert`, or an out-of-range bucket read when
`N ≤ 0`). -/
inductive MutOutcome (κ : Type u) (ν : Type v) where
  | ret (b : Bool) (table : HashTable κ ν)
  | nullDeref
  | ub

/-- The bucket-selection expression `table->hash_function(key) % table->N`
shared by every operation (lines 83, 102, 131, 164). `N` undergoes the
usual arithmetic conversion to the unsigned `size_t`: for `N ≥ 1` this is
plain `hash mod N`; the callers' `ub` escape covers `N ≤ 0`. -/
def bucket_index (table : HashTable κ ν) (key : κ) : Nat :=
  table.hash_function key % table.N.toNat

/-- Reads the bucket slot the operation addresses; `none` models an
out-of-range read of the bucket array. -/
def getBucket (table : HashTable κ ν) (key : κ) : Option (Option (Chain κ ν)) :=
  table.buckets[bucket_index table key]?

/-- Writing the (possibly rebuilt) chain back into the addressed bucket
slot models the in-place list surgery the source performs through node
pointers. -/
def setBucket (table : HashTable κ ν) (key : κ) (chain : Chain κ ν) :
    HashTable κ ν :=
  { table with buckets := table.buckets.set (bucket_index table key) (some chain) }

/-- `insert`, lines 74-85, for non-null arguments (the NULL-argument guard
of lines 75-78 returns false and is outside this embedding, which passes
values directly). Line 80 declares `Record* r;` and lines 81-82 assign
`r->key` and `r->value` through that uninitialised pointer: undefined
behaviour before `add_beginning` is ever reached, so the embedding of
`insert` is `ub` for every table, key and value. (Were the write valid,
the record would hold the caller's pointers rather than copies of the
`key_size`/`value_size` bytes, and `add_beginning(table->buckets[...], r,
sizeof(Record*))` would receive a fresh table's NULL `LinkedList*` by
value, unable to ever make the slot non-NULL.) -/
def insert (table : HashTable κ ν) (key : κ) (value : ν) : MutOutcome κ ν :=
  MutOutcome.ub

/-- The scan loop of `search` (lines 104-111). The loop body never updates
`node`, so only the first node is ever inspected: the loop returns the
head's value when `compare(key, r->key) == 0` and otherwise repeats the
same comparison forever, modelled by `diverge`. -/
def scan_search (compare : κ → κ → Int) (key : κ) : Chain κ ν → SearchOutcome ν
  | [] => SearchOutcome.notFound
  | r :: _ =>
      if compare key r.key = 0 then SearchOutcome.found r.value
      else SearchOutcome.diverge

/-- `search`, lines 96-114, for non-null arguments (the guard of lines
97-100 returns NULL). Line 102 reads `table->buckets[...]->first`: when
the slot holds a NULL `LinkedList*`, as every slot of a fresh table does,
this dereferences NULL. -/
def search (table : HashTable κ ν) (key : κ) : SearchOutcome ν :=
  match getBucket table key with
  | none => SearchOutcome.ub
  | some none => SearchOutcome.nullDeref
  | some (some chain) => scan_search table.compare key chain

/-- The scan loop of `replace` (lines 133-144): advance until the first
node whose key compares equal, overwrite its `value` field in place and
return true; `none` when the chain is exhausted (replace then returns
false, having written nothing). -/
def scan_replace (compare : κ → κ → Int) (key : κ) (new_value : ν) :
    Chain κ ν → Option (Chain κ ν)
  | [] => none
  | r :: rest =>
      if compare key r.key = 0 then
        some ({ key := r.key, value := new_value } :: rest)
      else
        (scan_replace compare key new_value rest).map (fun c => r :: c)

/-- `replace`, lines 125-147, for non-null arguments (the guard of lines
126-129 returns false). Line 131 dereferences the bucket's `LinkedList*`,
NULL on every slot of a fresh table. -/
def replace (table : HashTable κ ν) (key : κ) (new_value : ν) : MutOutcome κ ν :=
  match getBucket table key with
  | none => MutOutcome.ub
  | some none => MutOutcome.nullDeref
  | some (some chain) =>
      match scan_replace table.compare key new_value chain with
      | some chain' => MutOutcome.ret true (setBucket table key chain')
      | none => MutOutcome.ret false table

/-- The counting scan of `remove` (lines 163-177): `count` starts at 0 and
is incremented past every non-matching node; the loop breaks at the first
match, leaving `count` the zero-based position of the matching node, or
runs off the chain (`none`, remove then returns false). -/
def scan_remove (compare : κ → κ → Int) (key : κ) : Chain κ ν → Nat → Option Nat
  | [], _ => none
  | r :: rest, count =>
      if compare key r.key = 0 then some count
      else scan_remove compare key rest (count + 1)

/-- Modelled from the spec: `remove_n` comes from the absent `linked_list`
module; per its name and the unlink semantics of spec section 4.5 it
unlinks the node at the given zero-based position of the chain. -/
def remove_n : Chain κ ν → Nat → Chain κ ν
  | [], _ => []
  | _ :: rest, 0 => rest
  | r :: rest, n + 1 => r :: remove_n rest n

/-- `remove`, lines 157-187, for non-null arguments (the guard of lines
158-161 returns false). Line 164 dereferences the bucket's `LinkedList*`,
NULL on every slot of a fresh table; on a break at position `count` the
source calls `remove_n(table->buckets[...], count)` on the same bucket and
returns true. -/
def remove (table : HashTable κ ν) (key : κ) : MutOutcome κ ν :=
  match getBucket table key with
  | none => MutOutcome.ub
  | some none => MutOutcome.nullDeref
  | some (some chain) =>
      match scan_remove table.compare key chain 0 with
      | some count => MutOutcome.ret true (setBucket table key (remove_n chain count))
      | none => MutOutcome.ret false table

/-- The spec's error kinds (spec section 7). -/
inductive TableError where
  | nullArgument
  | invalidConfig
  | keyNotFound
  | duplicateKey
deriving DecidableEq

/-- Follows the spec's words (sections 4.1 and 7), for comparison with
`create_table`: construction fails with `InvalidConfig` when `N ≤ 0` and
otherwise yields a table with `N` empty (allocated, zero-length)
buckets. -/
def create_table_spec (N : Int) (hash_function : κ → Nat)
    (compare : κ → κ → Int) (record_formatter : Record κ ν → String)
    (key_size value_size : Nat) : Except TableError (HashTable κ ν) :=
  if N ≤ 0 then Except.error TableError.invalidConfig
  else Except.ok
    { N := N
      buckets := List.replicate N.toNat (some [])
      hash_function := hash_function
      compare := compare
      record_formatter := record_formatter
      key_size := key_size
      value_size := value_size }

/-- Integer keys hashed to themselves, clamped to `Nat` as `size_t`
conversion would. -/
def idHash (k : Int) : Nat := k.toNat

/-- The spec's integer-subtraction comparator (section 8 scenario). -/
def subCompare (a b : Int) : Int := a - b

def noFormat (_ : Record Int Int) : String := ""

/-- A one-bucket table (`N = 1`) whose single, allocated chain is `chain`;
every key hashes to bucket 0, so this realises an arbitrary chain state of
the kind the operations scan. -/
def tChain (chain : Chain Int Int) : HashTable Int Int :=
  { N := 1
    buckets := [some chain]
    hash_function := idHash
    compare := subCompare
    record_formatter := noFormat
    key_size := 8
    value_size := 8 }

/-- Every slot left by the initialisation loop is NULL: the loop writes
exactly `n` NULL slots. -/
theorem init_buckets_eq_replicate (κ : Type u) (ν : Type v) (n : Nat) :
    init_buckets κ ν n = List.replicate n (none : Option (Chain κ ν)) := by
  induction n with
  | zero => rfl
  | succ m ih => simp [init_buckets, List.replicate, ih]

/-- On a `tChain` table every key addresses the single bucket slot 0, which
holds the allocated chain. -/
theorem getBucket_tChain (chain : Chain Int Int) (k : Int) :
    getBucket (tChain chain) k = some (some chain) := by
  simp [getBucket, bucket_index, tChain, Nat.mod_one]

theorem tChain_compare (chain : Chain Int Int) :
    (tChain chain).compare = subCompare := rfl

/-- On a `tChain` table, `replace` returns normally when its scan finds a
matching node: true, with the overwritten chain written back. -/
theorem replace_tChain_some (chain chain' : Chain Int Int) (k v : Int)
    (h : scan_replace subCompare k v chain = some chain') :
    replace (tChain chain) k v
      = MutOutcome.ret true (setBucket (tChain chain) k chain') := by
  simp only [replace, getBucket_tChain, tChain_compare, h]

/-- On a `tChain` table, `replace` returns normally when its scan runs off
the chain: false, with the table untouched. -/
theorem replace_tChain_none (chain : Chain Int Int) (k v : Int)
    (h : scan_replace subCompare k v chain = none) :
    replace (tChain chain) k v = MutOutcome.ret false (tChain chain) := by
  simp only [replace, getBucket_tChain, tChain_compare, h]

/-- The counting scan stops at the first matching node and reports its
zero-based position. -/
theorem scan_remove_first_match (k : Int) (pre post : Chain Int Int)
    (r : Record Int Int) (c : Nat)
    (hpre : ∀ e ∈ pre, subCompare k e.key ≠ 0) (hr : subCompare k r.key = 0) :
    scan_remove subCompare k (pre ++ r :: post) c = some (c + pre.length) := by
  induction pre generalizing c with
  | nil => simp [scan_remove, hr]
  | cons a as ih =>
      have ha : ¬subCompare k a.key = 0 := hpre a (List.mem_cons_self a as)
      have ih2 := ih (c + 1) (fun e he => hpre e (List.mem_cons_of_mem a he))
      rw [List.cons_append]
      rw [show scan_remove subCompare k (a :: (as ++ r :: post)) c
            = if subCompare k a.key = 0 then some c
              else scan_remove subCompare k (as ++ r :: post) (c + 1) from rfl]
      rw [if_neg ha, ih2]
      simp only [List.length_cons, Option.some.injEq]
      omega

/-- Unlinking the node at the position of the first match of an
`pre ++ r :: post` chain yields `pre ++ post`. -/
theorem remove_n_at_append (pre post : Chain Int Int) (r : Record Int Int) :
    remove_n (pre ++ r :: post) pre.length = pre ++ post := by
  induction pre with
  | nil => rfl
  | cons a as ih => simp [List.cons_append, List.length_cons, remove_n, ih]

/-- Claim C1, evaluated at the failing input. On a fresh one-bucket table
with key 5 and value 7, `insert` is undefined behaviour (the write through
the uninitialised `Record*` of line 81) rather than a success, so the
claimed round trip of a successful `insert` followed by `search` returning
the value can never begin. -/
theorem c1_roundtrip_insert_undefined :
    insert (create_table 1 idHash subCompare noFormat 8 8) 5 7 = MutOutcome.ub := rfl

/-- Claim C2, evaluated at the failing input. On a table whose addressed
chain holds the single entry (key 1, value 10), searching for the absent
key 0 makes the scan loop of lines 104-111 repeat the same comparison
forever, because its body never advances `node`: the code diverges instead
of returning after at most chain-length comparisons. -/
theorem c2_search_scan_diverges :
    search (tChain [⟨1, 10⟩]) 0 = SearchOutcome.diverge := rfl

/-- Claim C3, evaluated at the failing input. On a freshly created table
every bucket slot is NULL, and `search`, `replace` and `remove` each
dereference `table->buckets[...]->first` (lines 102, 131, 164): a NULL
dereference rather than the claimed not-found result. -/
theorem c3_empty_table_ops_deref_null :
    search (create_table 1 idHash subCompare noFormat 8 8) 0 = SearchOutcome.nullDeref ∧
    replace (create_table 1 idHash subCompare noFormat 8 8) 0 9 = MutOutcome.nullDeref ∧
    remove (create_table 1 idHash subCompare noFormat 8 8) 0 = MutOutcome.nullDeref :=
  ⟨rfl, rfl, rfl⟩

/-- Claim C4, evaluated at the failing input. `insert` never allocates an
entry nor copies the `key_size`/`value_size` bytes: it assigns the caller's
pointers through an uninitialised `Record*` (lines 80-82), undefined
behaviour before the chain of bucket `hash(key) mod N` could be touched. -/
theorem c4_insert_no_copy :
    insert (create_table 4 idHash subCompare noFormat 8 8) 5 7 = MutOutcome.ub := rfl

/-- Claim C5, refuted at a concrete input. With an entry whose key
compares equal to 2 already in the addressed chain, `insert` with key 2 is
undefined behaviour: it is not a failure return (the `bool` API can only
fail by returning false, and no `DuplicateKey` result exists) and it is not
identical to `replace`, which succeeds and overwrites the value in
place. -/
theorem c5_counterexample :
    insert (tChain [⟨2, 20⟩]) 2 30 = MutOutcome.ub ∧
    replace (tChain [⟨2, 20⟩]) 2 30 = MutOutcome.ret true (tChain [⟨2, 30⟩]) ∧
    insert (tChain [⟨2, 20⟩]) 2 30 ≠ replace (tChain [⟨2, 20⟩]) 2 30 :=
  ⟨rfl, rfl, fun h => MutOutcome.noConfusion h⟩

/-- Claim C5 as amended: `insert` performs no duplicate-key check at all —
for every table, key and value it is undefined behaviour at the
uninitialised record write, so it never fails with a `DuplicateKey` result;
and on any table whose addressed bucket is allocated it differs from
`replace`, which always returns normally there. -/
theorem c5_insert_has_no_duplicate_policy (t : HashTable Int Int)
    (chain : Chain Int Int) (k v : Int) :
    insert t k v = MutOutcome.ub ∧
    insert (tChain chain) k v ≠ replace (tChain chain) k v := by
  refine ⟨rfl, ?_⟩
  intro h
  rw [show insert (tChain chain) k v = MutOutcome.ub from rfl] at h
  cases hscan : scan_replace subCompare k v chain with
  | some c =>
      rw [replace_tChain_some chain c k v hscan] at h
      exact MutOutcome.noConfusion h
  | none =>
      rw [replace_tChain_none chain k v hscan] at h
      exact MutOutcome.noConfusion h

/-- Witness for the amended C5 at a concrete input. -/
theorem c5_insert_has_no_duplicate_policy_witness :
    insert (tChain [⟨2, 20⟩]) 7 8 = MutOutcome.ub ∧
    insert (tChain [⟨2, 20⟩]) 7 8 ≠ replace (tChain [⟨2, 20⟩]) 7 8 :=
  c5_insert_has_no_duplicate_policy (tChain [⟨2, 20⟩]) [⟨2, 20⟩] 7 8

/-- Claim C6, evaluated at the failing input. The prior `insert` the claim
presupposes never succeeds — it is undefined behaviour on every input — so
the claimed post-state is unreachable; given a chain that already holds the
key at its head, `replace` itself does overwrite the value in place with
the chain length unchanged, and `search` then finds the new value only
because the entry sits at the head. -/
theorem c6_replace_after_insert_blocked :
    insert (create_table 4 idHash subCompare noFormat 8 8) 5 1 = MutOutcome.ub ∧
    replace (tChain [⟨5, 1⟩]) 5 2 = MutOutcome.ret true (tChain [⟨5, 2⟩]) ∧
    search (tChain [⟨5, 2⟩]) 5 = SearchOutcome.found 2 :=
  ⟨rfl, rfl, rfl⟩

/-- Claim C7, evaluated at the failing input. On the chain
[(1,10), (2,20)], removing key 2 succeeds and shortens the chain to
[(1,10)]; but the subsequent `search` for key 2 diverges in the
non-advancing scan loop instead of reporting not-found, and the subsequent
`insert` of key 2 is undefined behaviour instead of a success. When the
key is absent from an allocated chain, `remove` does return false. -/
theorem c7_remove_aftermath :
    remove (tChain [⟨1, 10⟩, ⟨2, 20⟩]) 2 = MutOutcome.ret true (tChain [⟨1, 10⟩]) ∧
    search (tChain [⟨1, 10⟩]) 2 = SearchOutcome.diverge ∧
    insert (tChain [⟨1, 10⟩]) 2 30 = MutOutcome.ub ∧
    remove (tChain [⟨1, 10⟩]) 2 = MutOutcome.ret false (tChain [⟨1, 10⟩]) :=
  ⟨rfl, rfl, rfl, rfl⟩

/-- Claim C8, refuted at the concrete input N = 0. The spec-side
construction fails with `InvalidConfig`, but `create_table` performs no
validation: it returns a normal table whose `N` field is 0 and whose bucket
array is empty. -/
theorem c8_counterexample :
    create_table_spec 0 idHash subCompare noFormat 8 8
      = Except.error TableError.invalidConfig ∧
    create_table 0 idHash subCompare noFormat 8 8 =
      ({ N := 0, buckets := [], hash_function := idHash, compare := subCompare,
         record_formatter := noFormat, key_size := 8,
         value_size := 8 } : HashTable Int Int) :=
  ⟨rfl, rfl⟩

/-- Claim C8 as amended: `create_table` validates nothing — for every `N`
(positive or not) it returns a table whose `N` field is the argument and
whose bucket array has `max(N,0)` slots, every one the NULL chain; in
particular for `N ≥ 1` there are exactly `N` bucket slots, none holding any
entry (but NULL rather than allocated empty chains). -/
theorem c8_create_unvalidated (N : Int) (hash_function : Int → Nat)
    (compare : Int → Int → Int) (record_formatter : Record Int Int → String)
    (key_size value_size : Nat) :
    (create_table N hash_function compare record_formatter key_size value_size).N = N ∧
    (create_table N hash_function compare record_formatter key_size value_size).buckets
      = List.replicate N.toNat none :=
  ⟨rfl, init_buckets_eq_replicate Int Int N.toNat⟩

/-- Witness for the amended C8 at a concrete input. -/
theorem c8_create_unvalidated_witness :
    (create_table 3 idHash subCompare noFormat 8 8).N = 3 ∧
    (create_table 3 idHash subCompare noFormat 8 8).buckets = List.replicate 3 none :=
  c8_create_unvalidated 3 idHash subCompare noFormat 8 8

/-- Claim C9, evaluated at the failing input. The bucket-distribution
invariant over reachable states is only vacuously maintained: a fresh
table holds no entries (all slots NULL), and `insert` — the sole operation
that could place an entry into bucket `hash(k) mod N` — is undefined
behaviour on every input, so no reachable state ever contains an entry. -/
theorem c9_no_entry_reachable :
    insert (create_table 4 idHash subCompare noFormat 8 8) 5 70 = MutOutcome.ub ∧
    (create_table 4 idHash subCompare noFormat 8 8).buckets = List.replicate 4 none :=
  ⟨rfl, rfl⟩

/-- Claim C10, refuted at a concrete input. `insert` never links anything
at the head of a chain — it is undefined behaviour at the uninitialised
record write — and `search` does not act on the matching entry of a chain
unless that entry is the head: on [(1,10), (2,20)] a search for key 2
diverges even though an entry with the matching key is present. -/
theorem c10_counterexample :
    insert (tChain [⟨1, 10⟩, ⟨2, 20⟩]) 9 90 = MutOutcome.ub ∧
    search (tChain [⟨1, 10⟩, ⟨2, 20⟩]) 2 = SearchOutcome.diverge :=
  ⟨rfl, rfl⟩

/-- Claim C10 as amended: `insert` links nothing (undefined behaviour
before `add_beginning` is reached); `remove` unlinks the first entry in
chain order whose key compares equal, leaving every later entry — equal
keyed or not — in place; and `search` examines only the chain head,
returning its value when the head matches and diverging otherwise. -/
theorem c10_order_of_action (pre post : Chain Int Int) (r : Record Int Int)
    (k v : Int) (t : HashTable Int Int)
    (hpre : ∀ e ∈ pre, subCompare k e.key ≠ 0) (hr : subCompare k r.key = 0) :
    insert t k v = MutOutcome.ub ∧
    remove (tChain (pre ++ r :: post)) k = MutOutcome.ret true (tChain (pre ++ post)) ∧
    ∀ r0 rest, search (tChain (r0 :: rest)) k =
      if subCompare k r0.key = 0 then SearchOutcome.found r0.value
      else SearchOutcome.diverge := by
  refine ⟨rfl, ?_, ?_⟩
  · have hscan := scan_remove_first_match k pre post r 0 hpre hr
    rw [remove, getBucket_tChain]
    show (match scan_remove subCompare k (pre ++ r :: post) 0 with
      | some count =>
          MutOutcome.ret true
            (setBucket (tChain (pre ++ r :: post)) k
              (remove_n (pre ++ r :: post) count))
      | none => MutOutcome.ret false (tChain (pre ++ r :: post)))
        = MutOutcome.ret true (tChain (pre ++ post))
    rw [hscan, Nat.zero_add]
    simp only [remove_n_at_append]
    simp [setBucket, bucket_index, tChain, Nat.mod_one, List.set_cons_zero]
  · intro r0 rest
    rw [search, getBucket_tChain]
    show scan_search (tChain (r0 :: rest)).compare k (r0 :: rest) = _
    by_cases h : subCompare k r0.key = 0 <;> simp [scan_search, tChain, h]

/-- Witness for the amended C10 at a concrete input. -/
theorem c10_order_of_action_witness :
    remove (tChain [⟨1, 10⟩, ⟨2, 20⟩, ⟨3, 30⟩]) 2
      = MutOutcome.ret true (tChain [⟨1, 10⟩, ⟨3, 30⟩]) ∧
    insert (tChain []) 2 99 = MutOutcome.ub :=
  ⟨(c10_order_of_action [⟨1, 10⟩] [⟨3, 30⟩] ⟨2, 20⟩ 2 99 (tChain [])
      (by decide) (by decide)).2.1,
   (c10_order_of_action [⟨1, 10⟩] [⟨3, 30⟩] ⟨2, 20⟩ 2 99 (tChain [])
      (by decide) (by decide)).1⟩

end ChainedTable
